import Mathlib

/-!
Verification development for the globe rendering core of this repository.

The relevant source modules are the geo utilities
(src/cmc-globe/src/utils/geoUtils.js: generateLatLonGrid, sampleLandMask,
regionDefinitions, countryToRegion, assignDotsToRegions,
calculateRegionCentroids) and the Globe component (Globe.js: the overlay
count state, the countryUpdate effect that recolors a region, and
drawTrafficArc).  Pure numeric code is embedded over the rationals where the
JavaScript source only uses field operations and comparisons, and over the
reals where it uses transcendental functions (sqrt, asin, atan2, sin, cos).
One small auxiliary model of IEEE special values (JsNum) captures the
JavaScript behaviour of division by zero in generateLatLonGrid.
-/

/- ## Land mask sampler (sampleLandMask, geoUtils.js lines 91-149)

The browser environment is made explicit: the image either loads (`some`)
or errors (`none`), the 2D canvas context is either obtainable or not
(`ctxOk`), and `pixelAt` returns `none` when `getImageData` throws for that
pixel.  `width`/`height` mirror `img.width`/`img.height`. -/

/-- A loaded land-mask raster: dimensions plus a pixel read that can fail
(models `ctx.getImageData` throwing), returning RGBA channels 0..255. -/
structure MaskImage where
  width : ℕ
  height : ℕ
  pixelAt : ℕ → ℕ → Option (ℕ × ℕ × ℕ × ℕ)

/-- A generated point, as consumed by the land-mask filter. -/
structure GeoPoint where
  lat : ℚ
  lon : ℚ
deriving DecidableEq

/-- Pixel x index: `Math.max(0, Math.min(Math.floor(u * img.width), img.width - 1))`
with `u = (lon + 180) / 360`.  Computed in ℤ (so that `width - 1` can be `-1`
when the image is empty, as in JavaScript) and then clamped to ℕ. -/
def maskPixelX (img : MaskImage) (p : GeoPoint) : ℤ :=
  let u : ℚ := (p.lon + 180) / 360
  max 0 (min ⌊u * (img.width : ℚ)⌋ ((img.width : ℤ) - 1))

/-- Pixel y index: `Math.max(0, Math.min(Math.floor(v * img.height), img.height - 1))`
with `v = (90 - lat) / 180`. -/
def maskPixelY (img : MaskImage) (p : GeoPoint) : ℤ :=
  let v : ℚ := (90 - p.lat) / 180
  max 0 (min ⌊v * (img.height : ℚ)⌋ ((img.height : ℤ) - 1))

/-- The per-point land test inside `points.filter`: read the RGBA pixel and
require every channel above 200; a failed pixel read (the `catch` branch)
counts as non-land. -/
def isLandPoint (img : MaskImage) (p : GeoPoint) : Bool :=
  match img.pixelAt (maskPixelX img p).toNat (maskPixelY img p).toNat with
  | none => false
  | some (r, g, b, a) => decide (200 < r) && decide (200 < g) && decide (200 < b) && decide (200 < a)

/-- sampleLandMask: rejects when the image fails to load (`img.onerror`) or
when the 2D context cannot be obtained (`if (!ctx) ... reject`); otherwise
resolves with the filtered point list. -/
def sampleLandMask (loadResult : Option MaskImage) (ctxOk : Bool)
    (points : List GeoPoint) : Except String (List GeoPoint) :=
  match loadResult with
  | none => Except.error "Failed to load land mask image"
  | some img =>
    if ctxOk then Except.ok (points.filter (fun p => isLandPoint img p))
    else Except.error "Failed to get 2D context for land mask sampling"

/- ## Point generator (generateLatLonGrid, geoUtils.js lines 46-68)

Real-valued embedding of the Fibonacci-lattice construction.  The loop body
for index `i` out of `numPoints` is split into one definition per local
variable of the source. -/

/-- Golden angle: `Math.PI * (3.0 - Math.sqrt(5.0))`. -/
noncomputable def goldenAngle : ℝ := Real.pi * (3 - Real.sqrt 5)

/-- `y = 1 - (i / (numPoints - 1)) * 2`. -/
noncomputable def genY (numPoints i : ℕ) : ℝ :=
  1 - ((i : ℝ) / ((numPoints : ℝ) - 1)) * 2

/-- `radiusAtY = Math.sqrt(1 - y * y)`. -/
noncomputable def radiusAtY (numPoints i : ℕ) : ℝ :=
  Real.sqrt (1 - genY numPoints i * genY numPoints i)

/-- `theta = phi * i` where `phi` is the golden angle. -/
noncomputable def genTheta (i : ℕ) : ℝ := goldenAngle * (i : ℝ)

/-- Two-argument arctangent `Math.atan2(y, x)`, realised as the argument of
the complex number `x + y*I` (both agree on every quadrant and at 0). -/
noncomputable def atan2 (y x : ℝ) : ℝ := Complex.arg ⟨x, y⟩

/-- `lat = Math.asin(y) * (180 / Math.PI)`. -/
noncomputable def genLat (numPoints i : ℕ) : ℝ :=
  Real.arcsin (genY numPoints i) * (180 / Real.pi)

/-- `lon = Math.atan2(z, x) * (180 / Math.PI)` with
`x = Math.cos(theta) * radiusAtY` and `z = Math.sin(theta) * radiusAtY`. -/
noncomputable def genLon (numPoints i : ℕ) : ℝ :=
  atan2 (Real.sin (genTheta i) * radiusAtY numPoints i)
        (Real.cos (genTheta i) * radiusAtY numPoints i) * (180 / Real.pi)

/-- generateLatLonGrid: the points pushed by the loop, in index order,
each as a (lat, lon) pair. -/
noncomputable def generateLatLonGrid (numPoints : ℕ) : List (ℝ × ℝ) :=
  (List.range numPoints).map (fun i => (genLat numPoints i, genLon numPoints i))

/- ## JavaScript number model for the y computation (C3)

JavaScript evaluates `0 / 0` to NaN and propagates it; the real-valued
embedding above cannot express this (Lean defines x / 0 = 0), so the single
line `const y = 1 - (i / (numPoints - 1)) * 2` is additionally modelled with
IEEE special values over exact rational arithmetic. -/

/-- A JavaScript double restricted to exact rational values plus the three
special values produced by the expressions modelled here. -/
inductive JsNum where
  | nan : JsNum
  | posInf : JsNum
  | negInf : JsNum
  | val : ℚ → JsNum
deriving DecidableEq

/-- JavaScript division of two finite numbers: `0 / 0 = NaN`,
`a / 0 = ±Infinity` for `a ≠ 0`, ordinary division otherwise. -/
def jsDiv (a b : ℚ) : JsNum :=
  if b = 0 then
    if a = 0 then JsNum.nan else if 0 < a then JsNum.posInf else JsNum.negInf
  else JsNum.val (a / b)

/-- JavaScript multiplication of a possibly-special value by a finite
constant. -/
def jsMul (x : JsNum) (c : ℚ) : JsNum :=
  match x with
  | JsNum.nan => JsNum.nan
  | JsNum.posInf => if c = 0 then JsNum.nan else if 0 < c then JsNum.posInf else JsNum.negInf
  | JsNum.negInf => if c = 0 then JsNum.nan else if 0 < c then JsNum.negInf else JsNum.posInf
  | JsNum.val q => JsNum.val (q * c)

/-- JavaScript subtraction of a possibly-special value from a finite
constant. -/
def jsSubFrom (c : ℚ) (x : JsNum) : JsNum :=
  match x with
  | JsNum.nan => JsNum.nan
  | JsNum.posInf => JsNum.negInf
  | JsNum.negInf => JsNum.posInf
  | JsNum.val q => JsNum.val (c - q)

/-- The source line `const y = 1 - (i / (numPoints - 1)) * 2` under
JavaScript number semantics. -/
def jsY (numPoints i : ℕ) : JsNum :=
  jsSubFrom 1 (jsMul (jsDiv (i : ℚ) ((numPoints : ℚ) - 1)) 2)

/- ## Region definitions and assignment (geoUtils.js lines 158-295) -/

/-- Axis-aligned latitude/longitude bounds of a region. -/
structure Bounds where
  latMin : ℚ
  latMax : ℚ
  lonMin : ℚ
  lonMax : ℚ
deriving DecidableEq

/-- One entry of `regionDefinitions`: name, bounds and ISO 3166-1 alpha-2
country codes. -/
structure RegionDef where
  name : String
  bounds : Bounds
  countries : List String
deriving DecidableEq

/-- The `regionDefinitions` table, in declaration order (JavaScript object
literals preserve insertion order for string keys, and both
`Object.entries` and `Object.keys` iterate in that order). -/
def regionDefinitions : List RegionDef :=
  [ { name := "NorthAmerica",
      bounds := { latMin := 23, latMax := 85, lonMin := -170, lonMax := -50 },
      countries := ["US", "CA", "MX"] },
    { name := "SouthAmerica",
      bounds := { latMin := -60, latMax := 15, lonMin := -90, lonMax := -30 },
      countries := ["BR", "AR", "CO", "PE", "VE", "CL", "EC", "BO", "PY", "UY", "GY", "SR", "GF"] },
    { name := "CentralAsia",
      bounds := { latMin := 19, latMax := 45, lonMin := 48, lonMax := 78 },
      countries := ["KZ", "KG", "TJ", "TM", "UZ", "AF"] },
    { name := "Europe",
      bounds := { latMin := 35, latMax := 72, lonMin := -25, lonMax := 45 },
      countries := ["AL", "AD", "AM", "AT", "AZ", "BY", "BE", "BA", "BG", "HR", "CY", "CZ", "DK",
        "EE", "FO", "FI", "FR", "GE", "DE", "GI", "GR", "HU", "IS", "IE", "IM", "IT",
        "XK", "LV", "LI", "LT", "LU", "MT", "MD", "MC", "ME", "NL", "MK", "NO", "PL",
        "PT", "RO", "RU", "SM", "RS", "SK", "SI", "ES", "SJ", "SE", "CH", "TR", "UA", "GB", "VA"] },
    { name := "Africa",
      bounds := { latMin := -40, latMax := 40, lonMin := -20, lonMax := 55 },
      countries := ["DZ", "AO", "BJ", "BW", "BF", "BI", "CV", "CM", "CF", "TD", "KM", "CG", "CD",
        "CI", "DJ", "EG", "GQ", "ER", "SZ", "ET", "GA", "GM", "GH", "GN", "GW", "KE",
        "LS", "LR", "LY", "MG", "MW", "ML", "MR", "MU", "YT", "MA", "MZ", "NA", "NE",
        "NG", "RE", "RW", "ST", "SN", "SC", "SL", "SO", "ZA", "SS", "SD", "TZ", "TG",
        "TN", "UG", "EH", "ZM", "ZW"] },
    { name := "EastAsia",
      bounds := { latMin := 20, latMax := 50, lonMin := 100, lonMax := 150 },
      countries := ["CN", "JP", "KP", "KR", "MN", "TW", "HK", "MO"] },
    { name := "SouthAsia",
      bounds := { latMin := 5, latMax := 38, lonMin := 60, lonMax := 100 },
      countries := ["BD", "BT", "IN", "MV", "NP", "PK", "LK"] },
    { name := "SoutheastAsia",
      bounds := { latMin := -12, latMax := 25, lonMin := 92, lonMax := 141 },
      countries := ["BN", "KH", "ID", "LA", "MY", "MM", "PH", "SG", "TH", "TL", "VN"] },
    { name := "WestAsia",
      bounds := { latMin := 12, latMax := 42, lonMin := 26, lonMax := 64 },
      countries := ["BH", "IQ", "IR", "IL", "JO", "KW", "LB", "OM", "PS", "QA", "SA", "SY", "AE", "YE"] },
    { name := "NorthAsia",
      bounds := { latMin := 50, latMax := 80, lonMin := 60, lonMax := 180 },
      countries := ["RU"] },
    { name := "Oceania",
      bounds := { latMin := -50, latMax := 0, lonMin := 110, lonMax := 180 },
      countries := ["AU", "NZ", "PG", "FJ", "SB", "VU", "NC", "PF", "WS", "TO", "FM", "KI", "MH", "NR", "PW", "TV"] } ]

/-- The `countryToRegion` reverse lookup table, built by the source's nested
forEach: iterating the region definitions in order and writing
`countryToRegion[countryCode] = regionName` for every listed code, so a code
listed under two regions resolves to the later one (last writer wins). -/
def countryToRegion (code : String) : Option String :=
  regionDefinitions.foldl
    (fun acc rd =>
      rd.countries.foldl (fun a c => fun k => if k = c then some rd.name else a k) acc)
    (fun _ => none) code

/-- Inclusive bound containment, as in the assignment loop:
`lat >= bounds.latMin && lat <= bounds.latMax && lon >= bounds.lonMin && lon <= bounds.lonMax`. -/
def inBounds (b : Bounds) (lat lon : ℚ) : Prop :=
  b.latMin ≤ lat ∧ lat ≤ b.latMax ∧ b.lonMin ≤ lon ∧ lon ≤ b.lonMax

instance (b : Bounds) (lat lon : ℚ) : Decidable (inBounds b lat lon) := by
  unfold inBounds; infer_instance

/-- The `for ... break` scan over `regionDefinitions`: the first region whose
bounds contain the point, if any. -/
def findRegion (lat lon : ℚ) : Option String :=
  (regionDefinitions.find? (fun rd => decide (inBounds rd.bounds lat lon))).map
    (fun rd => rd.name)

/-- A dot as seen by `assignDotsToRegions`: a JavaScript object whose `lat`
and `lon` may fail the `typeof ... === 'number'` test (`none`) and whose
`region` field may be unset (`none`). -/
structure ADot where
  lat : Option ℚ
  lon : Option ℚ
  region : Option String
deriving DecidableEq

/-- `regionDots[regionName].push(dotId)`, creating the key first when absent
(only ever needed for the lazily-created "Undefined" bucket). -/
def pushBucket (bs : List (String × List ℕ)) (r : String) (i : ℕ) :
    List (String × List ℕ) :=
  if bs.any (fun p => p.1 = r) then
    bs.map (fun p => if p.1 = r then (p.1, p.2 ++ [i]) else p)
  else bs ++ [(r, [i])]

/-- The initial `regionDots` object: every declared region name mapped to an
empty id list. -/
def initBuckets : List (String × List ℕ) :=
  regionDefinitions.map (fun rd => (rd.name, []))

/-- One iteration of the `Object.entries(dotIdMap).forEach` body, acting on
the accumulated (updated dots, regionDots) pair. -/
def assignStep (acc : List (ℕ × ADot) × List (String × List ℕ))
    (p : ℕ × ADot) : List (ℕ × ADot) × List (String × List ℕ) :=
  match p.2.lat, p.2.lon with
  | some lat, some lon =>
    match findRegion lat lon with
    | some r => (acc.1 ++ [(p.1, { p.2 with region := some r })], pushBucket acc.2 r p.1)
    | none => (acc.1 ++ [(p.1, { p.2 with region := some "Undefined" })],
               pushBucket acc.2 "Undefined" p.1)
  | _, _ => (acc.1 ++ [p], acc.2)

/-- assignDotsToRegions: returns the dot map after the in-place mutation
(in entry order) together with the returned `regionDots` buckets.  A dot
failing the numeric lat/lon guard is returned unchanged and enters no
bucket. -/
def assignDotsToRegions (dotIdMap : List (ℕ × ADot)) :
    List (ℕ × ADot) × List (String × List ℕ) :=
  dotIdMap.foldl assignStep ([], initBuckets)

/- ## Centroid calculator (calculateRegionCentroids, geoUtils.js lines 305-362) -/

/-- A dot as seen by the centroid calculation: Cartesian coordinates only.
`dotIdMap` lookups can miss (`dotIdMap[dotId]` undefined). -/
structure CDot where
  x : ℝ
  y : ℝ
  z : ℝ

/-- The member dots that pass the validity guard
(`dot && typeof dot.x === 'number' && ...`): in this embedding, exactly the
ids present in the map. -/
def validDots (ids : List ℕ) (dotIdMap : ℕ → Option CDot) : List CDot :=
  ids.filterMap dotIdMap

/-- The averaged Cartesian position `(sumX/validDotsCount, ...)` of a
region's valid dots (the value is only used when the list is nonempty). -/
noncomputable def avgVec (ids : List ℕ) (dotIdMap : ℕ → Option CDot) : ℝ × ℝ × ℝ :=
  let vd := validDots ids dotIdMap
  let n : ℝ := vd.length
  ((vd.map (fun d => d.x)).sum / n,
   (vd.map (fun d => d.y)).sum / n,
   (vd.map (fun d => d.z)).sum / n)

/-- The centroid computed for one region's id list: `(0,0,0)` when the list
is empty, when no valid dot exists, or when the averaged vector has length
zero; otherwise the average normalized to the unit sphere
(`centroidRadius = 1.0`). -/
noncomputable def centroidFor (ids : List ℕ) (dotIdMap : ℕ → Option CDot) : ℝ × ℝ × ℝ :=
  if ids.isEmpty then (0, 0, 0)
  else if (validDots ids dotIdMap).length = 0 then (0, 0, 0)
  else
    let a := avgVec ids dotIdMap
    let len := Real.sqrt (a.1 * a.1 + a.2.1 * a.2.1 + a.2.2 * a.2.2)
    if len = 0 then (0, 0, 0)
    else (a.1 / len * 1, a.2.1 / len * 1, a.2.2 / len * 1)

/-- calculateRegionCentroids: one centroid per region key of `regionDots`. -/
noncomputable def calculateRegionCentroids (regionDots : List (String × List ℕ))
    (dotIdMap : ℕ → Option CDot) : List (String × (ℝ × ℝ × ℝ)) :=
  regionDots.map (fun p => (p.1, centroidFor p.2 dotIdMap))

/- ## Globe overlay state and region recoloring (Globe.js)

State touched by the countryUpdate effect (Globe.js lines 586-649): the
per-region overlay counts (a JavaScript object read with `|| 0`, modelled as
a total map defaulting to 0, over ℤ so that the `Math.max(0, ...)` floor is
meaningful), the shared per-instance color buffer (a flat float array,
modelled as a total map from array offset to value), and the dot metadata
map (only `region` and `instanceIndex` are read by this effect). -/

/-- A dot as seen by the countryUpdate effect. -/
structure GDot where
  instanceIndex : ℕ
  region : Option String
deriving DecidableEq

/-- The mutable state the countryUpdate effect reads and writes. -/
structure GlobeState where
  counts : String → ℤ
  colorBuf : ℕ → ℚ
  dots : List GDot

/-- The `countryUpdate` prop: `{ type, code, name, isInitial }` (the country
name is not used by the state transition). -/
structure CountryUpdate where
  type : String
  code : String
  isInitial : Bool

/-- `overlayStrength = Math.min(count * 0.2, 1.0)`. -/
def overlayStrength (count : ℤ) : ℚ := min ((count : ℚ) * (1 / 5)) 1

/-- Componentwise `THREE.Color.lerp`: `c += (target - c) * alpha`. -/
def lerpColor (c target : ℚ × ℚ × ℚ) (alpha : ℚ) : ℚ × ℚ × ℚ :=
  (c.1 + (target.1 - c.1) * alpha,
   c.2.1 + (target.2.1 - c.2.1) * alpha,
   c.2.2 + (target.2.2 - c.2.2) * alpha)

/-- `finalColor`: white (0xffffff) lerped toward red (0xff0000) by the
overlay strength. -/
def displayColor (count : ℤ) : ℚ × ℚ × ℚ :=
  lerpColor (1, 1, 1) (1, 0, 0) (overlayStrength count)

/-- `finalColor.toArray(colorAttribute.array, instanceIndex * 3)`: write the
three channels at offsets 3i, 3i+1, 3i+2. -/
def writeColor (buf : ℕ → ℚ) (i : ℕ) (c : ℚ × ℚ × ℚ) : ℕ → ℚ :=
  fun n =>
    if n = 3 * i then c.1
    else if n = 3 * i + 1 then c.2.1
    else if n = 3 * i + 2 then c.2.2
    else buf n

/-- The recolor loop `Object.values(dotIdMap.current).forEach`: every dot
whose `region` equals the target region gets the final color written at its
instance offset. -/
def writeRegionColors (dots : List GDot) (regionName : String) (c : ℚ × ℚ × ℚ)
    (buf : ℕ → ℚ) : ℕ → ℚ :=
  dots.foldl
    (fun b d => if d.region = some regionName then writeColor b d.instanceIndex c else b)
    buf

/-- The countryUpdate effect as a state transition.  Guards from the source:
a missing/empty code or an empty dot map is a no-op (the mesh and the color
attribute are assumed present, as they are whenever the dot map is
nonempty); an unresolvable country code logs and no-ops; an unknown update
type no-ops.  For `blacklist`, only a non-initial update increments the
region count; for `unblacklist` the count is decremented with a floor at 0.
In both cases the region is then recolored from the current count. -/
def applyCountryUpdate (st : GlobeState) (u : CountryUpdate) : GlobeState :=
  if u.code = "" ∨ st.dots.isEmpty then st
  else
    match countryToRegion u.code with
    | none => st
    | some targetRegionName =>
      if u.type = "blacklist" then
        let counts2 : String → ℤ :=
          if u.isInitial then st.counts
          else fun s => if s = targetRegionName then st.counts targetRegionName + 1 else st.counts s
        let count := counts2 targetRegionName
        { st with
          counts := counts2,
          colorBuf := writeRegionColors st.dots targetRegionName (displayColor count) st.colorBuf }
      else if u.type = "unblacklist" then
        let counts2 : String → ℤ :=
          fun s => if s = targetRegionName then max 0 (st.counts targetRegionName - 1) else st.counts s
        let count := counts2 targetRegionName
        { st with
          counts := counts2,
          colorBuf := writeRegionColors st.dots targetRegionName (displayColor count) st.colorBuf }
      else st

/-- One step of the stored-blacklist replay (Globe.js lines 195-200): a
stored entry whose country id resolves to a region increments that region's
count, an unresolvable id changes nothing. -/
def initCountStep (m : String → ℤ) (cid : String) : String → ℤ :=
  match countryToRegion cid with
  | some r => fun s => if s = r then m s + 1 else m s
  | none => m

/-- The initial overlay counts (Globe.js lines 189-203): every region starts
at 0 and each stored blacklist entry whose country id resolves to a region
increments that region's count. -/
def initOverlayCounts (storedIds : List String) : String → ℤ :=
  storedIds.foldl initCountStep (fun _ => 0)

/-- The globe state right after construction: counts from the persisted
blacklist, an arbitrary initial color buffer and dot map. -/
def initGlobeState (storedIds : List String) (dots : List GDot) (buf : ℕ → ℚ) :
    GlobeState :=
  { counts := initOverlayCounts storedIds, colorBuf := buf, dots := dots }

/-- A sequence of countryUpdate events applied in arrival order. -/
def applyCountryUpdates (st : GlobeState) (us : List CountryUpdate) : GlobeState :=
  us.foldl applyCountryUpdate st

/- ## Arc animator (drawTrafficArc, Globe.js lines 399-466)

The guards on the globe/scene refs are assumed satisfied (they are set
before any WebSocket message can arrive); the guard on the centroid map
being nonempty is kept.  The Bezier midpoint, the 50-segment sampling and
the 5-second removal timer are deterministic geometry/lifetime attached to
the created arc and are not needed by any claim; the created arc is
represented by its two anchor points. -/

/-- `regionCentroidsMap.current[regionName]`: `none` models `undefined`. -/
def lookupCentroid (m : List (String × (ℝ × ℝ × ℝ))) (r : String) :
    Option (ℝ × ℝ × ℝ) :=
  (m.find? (fun p => p.1 = r)).map (fun p => p.2)

/-- `const targetRegionName = "NorthAmerica"`. -/
def targetRegionName : String := "NorthAmerica"

/-- A created arc, identified by the start and end points of its curve. -/
structure ArcInstance where
  startPoint : ℝ × ℝ × ℝ
  endPoint : ℝ × ℝ × ℝ

/-- drawTrafficArc: `none` is a no-op (no arc created), `some` is the arc
added to the globe.  The source checks `!sourceCentroidData` /
`!targetCentroidData`, which is true for a missing (undefined) entry but
false for any present object — including the zero-vector sentinel, which is
a truthy object. -/
def drawTrafficArc (centroids : List (String × (ℝ × ℝ × ℝ)))
    (sourceCountryCode : String) : Option ArcInstance :=
  if centroids.isEmpty then none
  else
    match countryToRegion sourceCountryCode with
    | none => none
    | some sourceRegionName =>
      if sourceRegionName = "Undefined" then none
      else if sourceRegionName = targetRegionName then none
      else
        match lookupCentroid centroids sourceRegionName,
              lookupCentroid centroids targetRegionName with
        | some s, some t => some { startPoint := s, endPoint := t }
        | _, _ => none

/- ## Auxiliary definitions used by the verification -/

/-- The effect of one `Object.entries(dotIdMap).forEach` iteration on the
dot entry alone (the in-place mutation performed by `assignDotsToRegions`
on a single dot). -/
def assignPure (p : ℕ × ADot) : ℕ × ADot :=
  match p.2.lat, p.2.lon with
  | some lat, some lon =>
    match findRegion lat lon with
    | some r => (p.1, { p.2 with region := some r })
    | none => (p.1, { p.2 with region := some "Undefined" })
  | _, _ => p

/-- Membership of a dot id in any bucket of a `regionDots` object. -/
def bucketMem (bs : List (String × List ℕ)) (i : ℕ) : Prop :=
  ∃ p ∈ bs, i ∈ p.2

/-- A one-dot map placing the single valid dot at (1, 0, 0), used to
instantiate the centroid-normalization theorem. -/
noncomputable def dmW : ℕ → Option CDot :=
  fun n => if n = 1 then some { x := 1, y := 0, z := 0 } else none

/-- A centroid map in which the target region has a regular centroid and
Oceania carries the zero-vector sentinel of a zero-member region. -/
noncomputable def centroidsCE : List (String × (ℝ × ℝ × ℝ)) :=
  [("NorthAmerica", (1, 0, 0)), ("Oceania", (0, 0, 0))]

/-- A two-region globe state used to instantiate the recoloring theorem:
one EastAsia dot at instance 0 and one Oceania dot at instance 1. -/
def stW9 : GlobeState :=
  { counts := fun _ => 0, colorBuf := fun _ => 0,
    dots := [{ instanceIndex := 0, region := some "EastAsia" },
             { instanceIndex := 1, region := some "Oceania" }] }

/-- An interactive blacklist update for "CN" (EastAsia). -/
def uW9 : CountryUpdate := { type := "blacklist", code := "CN", isInitial := false }

/- ## Theorems -/

/-- Claim C1 counterexample: with the centroid map holding the zero-vector
sentinel for Oceania (a region with zero member dots) and a regular centroid
for the target, drawTrafficArc for the source country code "AU" is not a
no-op: it creates an arc whose start anchor is the sentinel itself, because
the source only tests the centroid entries for being undefined and a present
zero-vector object passes that test. -/
theorem drawTrafficArc_zero_sentinel_creates_arc :
    drawTrafficArc centroidsCE "AU" =
      some { startPoint := (0, 0, 0), endPoint := (1, 0, 0) } := rfl

/-- Claim C1 (amended): once the source country code resolves to a region
that is neither "Undefined" nor the target, drawTrafficArc is a no-op
exactly when the source or target centroid entry is absent (undefined) in
the centroid map; any present centroid value — including the zero-vector
sentinel — yields a created arc anchored at those two values. -/
theorem drawTrafficArc_centroid_lookup (cm : List (String × (ℝ × ℝ × ℝ))) (code src : String)
    (hne : cm.isEmpty = false)
    (hsrc : countryToRegion code = some src)
    (hund : src ≠ "Undefined") (htgt : src ≠ targetRegionName) :
    (lookupCentroid cm src = none → drawTrafficArc cm code = none) ∧
    (lookupCentroid cm targetRegionName = none → drawTrafficArc cm code = none) ∧
    (∀ s t, lookupCentroid cm src = some s → lookupCentroid cm targetRegionName = some t →
      drawTrafficArc cm code = some { startPoint := s, endPoint := t }) := by
  unfold drawTrafficArc
  rw [hne, hsrc]
  simp only [Bool.false_eq_true, if_false, if_neg hund, if_neg htgt]
  refine ⟨?_, ?_, ?_⟩
  · intro h
    rw [h]
  · intro h
    rw [h]
    rcases lookupCentroid cm src <;> rfl
  · intro s t hs ht
    rw [hs, ht]

/-- Concrete instance of the amended C1 theorem: a centroid map that lacks
an entry for EastAsia makes drawTrafficArc "CN" a no-op. -/
theorem drawTrafficArc_centroid_lookup_witness :
    drawTrafficArc [("NorthAmerica", ((1 : ℝ), 0, 0))] "CN" = none :=
  (drawTrafficArc_centroid_lookup [("NorthAmerica", ((1 : ℝ), 0, 0))] "CN" "EastAsia"
    rfl rfl (by decide) (by decide)).1 rfl

/-- Claim C2 counterexample: the land-mask image loads, yet sampleLandMask
rejects, because the 2D canvas context cannot be obtained — so image-load
failure is not the only reject condition. -/
theorem sampleLandMask_ctx_reject :
    sampleLandMask
      (some { width := 2, height := 2, pixelAt := fun _ _ => some (255, 255, 255, 255) })
      false [] = Except.error "Failed to get 2D context for land mask sampling" := rfl

/-- Claim C2 (amended): sampleLandMask rejects exactly in its two setup
failure modes — the image failing to load, or the 2D context being
unobtainable; with both available it always resolves with the filtered
list, and a per-point pixel-read failure merely classifies that single
point as non-land. -/
theorem sampleLandMask_failure_modes (img : MaskImage) (points : List GeoPoint) :
    (∀ c : Bool, sampleLandMask none c points = Except.error "Failed to load land mask image") ∧
    (sampleLandMask (some img) false points =
      Except.error "Failed to get 2D context for land mask sampling") ∧
    (sampleLandMask (some img) true points =
      Except.ok (points.filter (fun p => isLandPoint img p))) ∧
    (∀ p : GeoPoint,
      img.pixelAt (maskPixelX img p).toNat (maskPixelY img p).toNat = none →
      isLandPoint img p = false) := by
  refine ⟨fun c => rfl, rfl, rfl, fun p h => ?_⟩
  unfold isLandPoint
  rw [h]

/-- Concrete instance of the amended C2 theorem: a point whose pixel read
throws is classified non-land rather than aborting. -/
theorem sampleLandMask_failure_modes_witness :
    isLandPoint { width := 2, height := 2, pixelAt := fun _ _ => none }
      { lat := 0, lon := 0 } = false :=
  (sampleLandMask_failure_modes _ []).2.2.2 _ rfl

/-- Claim C3 (code bug evidence): generateLatLonGrid has no special case
for numPoints = 1.  At that input the loop body evaluates
`i / (numPoints - 1)` with divisor 0 at i = 0, and under JavaScript number
semantics the computed y — and hence the point's lat and lon derived from
it — is NaN rather than a finite value. -/
theorem generateLatLonGrid_one_point_nan :
    (((1 : ℕ) : ℚ) - 1 = 0) ∧ jsY 1 0 = JsNum.nan := by
  constructor
  · norm_num
  · have h1 : ((1 : ℕ) : ℚ) - 1 = 0 := by norm_num
    have h0 : ((0 : ℕ) : ℚ) = 0 := by norm_num
    simp [jsY, jsDiv, jsMul, jsSubFrom, h1, h0]

/-- Claim C5: region assignment is first-match-wins in declaration order —
any point inside both CentralAsia's and WestAsia's declared bounds resolves
to CentralAsia, which is declared earlier (the two earlier regions' bounds
cannot contain such a point); in particular assignDotsToRegions puts a dot
at lat 35, lon 60 in CentralAsia, both on the dot and in the buckets. -/
theorem centralAsia_precedes_westAsia (lat lon : ℚ)
    (hca : inBounds { latMin := 19, latMax := 45, lonMin := 48, lonMax := 78 } lat lon)
    (hwa : inBounds { latMin := 12, latMax := 42, lonMin := 26, lonMax := 64 } lat lon) :
    findRegion lat lon = some "CentralAsia" ∧
    assignDotsToRegions [(1, { lat := some 35, lon := some 60, region := none })] =
      ([(1, { lat := some 35, lon := some 60, region := some "CentralAsia" })],
       pushBucket initBuckets "CentralAsia" 1) := by
  refine ⟨?_, rfl⟩
  obtain ⟨h1, h2, h3, h4⟩ := hca
  unfold findRegion regionDefinitions
  rw [List.find?_cons_of_neg, List.find?_cons_of_neg, List.find?_cons_of_pos]
  · rfl
  · exact decide_eq_true ⟨h1, h2, h3, h4⟩
  · simp only [decide_eq_true_eq]
    rintro ⟨-, -, -, hx⟩
    dsimp only at h3 hx
    linarith
  · simp only [decide_eq_true_eq]
    rintro ⟨-, -, -, hx⟩
    dsimp only at h3 hx
    linarith

/-- Concrete instance of the C5 theorem at the literal regression point
lat 35, lon 60, which lies in both regions' bounds. -/
theorem centralAsia_precedes_westAsia_witness :
    findRegion 35 60 = some "CentralAsia" :=
  (centralAsia_precedes_westAsia 35 60 (by norm_num [inBounds]) (by norm_num [inBounds])).1

/-- Claim C6: for a country code that resolves to a region, a blacklist
update with isInitial = true leaves every overlay count unchanged (only the
display color is recomputed), while isInitial = false increments exactly
the resolved region's count by 1 — so replaying persisted entries with
isInitial = true never double-counts against later interactive calls. -/
theorem blacklist_initial_vs_interactive (st : GlobeState) (u : CountryUpdate) (r : String)
    (hcode : u.code ≠ "") (hdots : st.dots ≠ [])
    (hr : countryToRegion u.code = some r) (ht : u.type = "blacklist") :
    (u.isInitial = true → (applyCountryUpdate st u).counts = st.counts) ∧
    (u.isInitial = false →
      (applyCountryUpdate st u).counts r = st.counts r + 1 ∧
      ∀ s, s ≠ r → (applyCountryUpdate st u).counts s = st.counts s) := by
  have hg : ¬ (u.code = "" ∨ st.dots.isEmpty = true) := by
    simp [hcode, hdots]
  unfold applyCountryUpdate
  rw [if_neg hg, hr, ht]
  rcases hini : u.isInitial
  · refine ⟨fun h => by simp at h, fun _ => ?_⟩
    simp only [if_neg (Bool.false_ne_true), if_pos rfl]
    constructor
    · simp
    · intro s hs
      simp [hs]
  · refine ⟨fun _ => ?_, fun h => by simp at h⟩
    simp

/-- Concrete instance of the C6 theorem: an initial-replay blacklist of
"CN" changes no count, and an interactive one raises EastAsia from 0 to 1. -/
theorem blacklist_initial_vs_interactive_witness :
    (applyCountryUpdate
      { counts := fun _ => 0, colorBuf := fun _ => 1,
        dots := [{ instanceIndex := 0, region := some "EastAsia" }] }
      { type := "blacklist", code := "CN", isInitial := true }).counts =
      (fun _ => (0 : ℤ)) ∧
    (applyCountryUpdate
      { counts := fun _ => 0, colorBuf := fun _ => 1,
        dots := [{ instanceIndex := 0, region := some "EastAsia" }] }
      { type := "blacklist", code := "CN", isInitial := false }).counts "EastAsia" =
      0 + 1 :=
  ⟨(blacklist_initial_vs_interactive
      { counts := fun _ => 0, colorBuf := fun _ => 1,
        dots := [{ instanceIndex := 0, region := some "EastAsia" }] }
      { type := "blacklist", code := "CN", isInitial := true }
      "EastAsia" (by decide) (by simp) rfl rfl).1 rfl,
   ((blacklist_initial_vs_interactive
      { counts := fun _ => 0, colorBuf := fun _ => 1,
        dots := [{ instanceIndex := 0, region := some "EastAsia" }] }
      { type := "blacklist", code := "CN", isInitial := false }
      "EastAsia" (by decide) (by simp) rfl rfl).2 rfl).1⟩

/-- Any single countryUpdate preserves non-negativity of every overlay
count: blacklist can only increment, unblacklist is floored at 0 by
`Math.max(0, ...)`, and every other path leaves the counts untouched. -/
lemma applyCountryUpdate_counts_nonneg (st : GlobeState) (u : CountryUpdate)
    (h : ∀ s, 0 ≤ st.counts s) (s : String) : 0 ≤ (applyCountryUpdate st u).counts s := by
  by_cases hg : u.code = "" ∨ st.dots = []
  · simp [applyCountryUpdate, hg, h s]
  rcases hcr : countryToRegion u.code with _ | r
  · simp [applyCountryUpdate, hg, hcr, h s]
  by_cases hb : u.type = "blacklist"
  · rcases hini : u.isInitial
    · by_cases hs : s = r
      · have h2 := h r
        simp [applyCountryUpdate, hg, hcr, hb, hini, hs]
        omega
      · simp [applyCountryUpdate, hg, hcr, hb, hini, hs, h s]
    · simp [applyCountryUpdate, hg, hcr, hb, hini, h s]
  by_cases hu : u.type = "unblacklist"
  · by_cases hs : s = r
    · simp [applyCountryUpdate, hg, hcr, hb, hu, hs, le_max_left]
    · simp [applyCountryUpdate, hg, hcr, hb, hu, hs, h s]
  · simp [applyCountryUpdate, hg, hcr, hb, hu, h s]

/-- One stored-blacklist replay step preserves non-negativity. -/
lemma initCountStep_nonneg (m : String → ℤ) (cid : String)
    (h : ∀ s, 0 ≤ m s) (s : String) : 0 ≤ initCountStep m cid s := by
  unfold initCountStep
  rcases hcr : countryToRegion cid with _ | r
  · exact h s
  · dsimp only
    by_cases hs : s = r
    · have := h s
      simp [hs] at this ⊢
      omega
    · simp [hs, h s]

/-- The initial overlay counts are non-negative for every region name. -/
lemma initOverlayCounts_nonneg (stored : List String) (s : String) :
    0 ≤ initOverlayCounts stored s := by
  unfold initOverlayCounts
  suffices hgen : ∀ (m : String → ℤ), (∀ t, 0 ≤ m t) → 0 ≤ (stored.foldl initCountStep m) s by
    exact hgen _ (fun _ => le_refl 0)
  induction stored with
  | nil => intro m hm; exact hm s
  | cons c cs ih =>
    intro m hm
    simp only [List.foldl_cons]
    exact ih _ (initCountStep_nonneg m c hm)

/-- Any sequence of countryUpdate events preserves non-negativity. -/
lemma applyCountryUpdates_counts_nonneg (us : List CountryUpdate) (st : GlobeState)
    (h : ∀ s, 0 ≤ st.counts s) (s : String) : 0 ≤ (applyCountryUpdates st us).counts s := by
  induction us generalizing st with
  | nil => exact h s
  | cons u us ih =>
    simp only [applyCountryUpdates, List.foldl_cons]
    have h2 : ∀ t, 0 ≤ (applyCountryUpdate st u).counts t :=
      fun t => applyCountryUpdate_counts_nonneg st u h t
    simpa [applyCountryUpdates] using ih (applyCountryUpdate st u) h2

/-- Claim C7: from the initial state (counts 0 plus the non-negative
stored-blacklist replay) every reachable overlay count is ≥ 0 under any
sequence of blacklist/unblacklist updates, and an unblacklist hitting a
region whose count is already 0 leaves it at 0 (floored decrement). -/
theorem overlay_count_never_negative (stored : List String) (dots : List GDot) (buf : ℕ → ℚ)
    (us : List CountryUpdate) (r : String) :
    0 ≤ (applyCountryUpdates (initGlobeState stored dots buf) us).counts r ∧
    (∀ (st : GlobeState) (u : CountryUpdate), st.counts r = 0 → u.type = "unblacklist" →
      (applyCountryUpdate st u).counts r = 0) := by
  constructor
  · exact applyCountryUpdates_counts_nonneg us _
      (fun s => initOverlayCounts_nonneg stored s) r
  · intro st u h0 hu
    by_cases hg : u.code = "" ∨ st.dots = []
    · simp [applyCountryUpdate, hg, h0]
    rcases hcr : countryToRegion u.code with _ | tr
    · simp [applyCountryUpdate, hg, hcr, h0]
    have hb : ¬ u.type = "blacklist" := by
      rw [hu]; decide
    by_cases hs : r = tr
    · subst hs
      simp [applyCountryUpdate, hg, hcr, hb, hu, h0]
    · simp [applyCountryUpdate, hg, hcr, hb, hu, hs, h0]

/-- Concrete instance of the C7 theorem: the freshly initialized Europe
count is ≥ 0, and unblacklisting "FR" with Europe already at 0 keeps it
at 0. -/
theorem overlay_count_never_negative_witness :
    0 ≤ (applyCountryUpdates (initGlobeState [] [] (fun _ => 0)) []).counts "Europe" ∧
    (applyCountryUpdate
      { counts := fun _ => 0, colorBuf := fun _ => 0,
        dots := [{ instanceIndex := 0, region := some "Europe" }] }
      { type := "unblacklist", code := "FR", isInitial := false }).counts "Europe" = 0 :=
  ⟨(overlay_count_never_negative [] [] (fun _ => 0) [] "Europe").1,
   (overlay_count_never_negative [] [] (fun _ => 0) [] "Europe").2 _ _ rfl rfl⟩

/-- A write at instance slot j does not touch the three channels of a
different instance slot i. -/
lemma writeColor_other (buf : ℕ → ℚ) (i j : ℕ) (c : ℚ × ℚ × ℚ) (k : ℕ)
    (hk : k < 3) (hij : j ≠ i) : writeColor buf j c (3 * i + k) = buf (3 * i + k) := by
  unfold writeColor
  rw [if_neg (by omega), if_neg (by omega), if_neg (by omega)]

/-- A write at instance slot i sets that slot's three channels to the
written color. -/
lemma writeColor_self (buf : ℕ → ℚ) (i : ℕ) (c : ℚ × ℚ × ℚ) (k : ℕ) (hk : k < 3) :
    writeColor buf i c (3 * i + k) =
      (if k = 0 then c.1 else if k = 1 then c.2.1 else c.2.2) := by
  unfold writeColor
  rcases k with _ | _ | _ | k
  · simp
  · rw [if_neg (by omega), if_pos rfl]
    rfl
  · rw [if_neg (by omega), if_neg (by omega), if_pos rfl]
    rfl
  · omega

/-- Characterization of the recolor loop: channel k of instance slot i
holds the written color exactly when some dot of the target region occupies
slot i, and is otherwise untouched. -/
lemma writeRegionColors_eval (dots : List GDot) (r : String) (c : ℚ × ℚ × ℚ)
    (buf : ℕ → ℚ) (i k : ℕ) (hk : k < 3) :
    writeRegionColors dots r c buf (3 * i + k) =
      if ∃ d ∈ dots, d.region = some r ∧ d.instanceIndex = i then
        (if k = 0 then c.1 else if k = 1 then c.2.1 else c.2.2)
      else buf (3 * i + k) := by
  induction dots generalizing buf with
  | nil => simp [writeRegionColors]
  | cons d ds ih =>
    have hstep : writeRegionColors (d :: ds) r c buf =
        writeRegionColors ds r c
          (if d.region = some r then writeColor buf d.instanceIndex c else buf) := rfl
    rw [hstep, ih]
    by_cases hd : d.region = some r
    · by_cases hi : d.instanceIndex = i
      · have hex : ∃ e ∈ d :: ds, e.region = some r ∧ e.instanceIndex = i :=
          ⟨d, List.mem_cons_self d ds, hd, hi⟩
        rw [if_pos hex]
        by_cases hds : ∃ e ∈ ds, e.region = some r ∧ e.instanceIndex = i
        · rw [if_pos hds]
        · rw [if_neg hds, if_pos hd, hi, writeColor_self _ _ _ _ hk]
      · by_cases hds : ∃ e ∈ ds, e.region = some r ∧ e.instanceIndex = i
        · have hex : ∃ e ∈ d :: ds, e.region = some r ∧ e.instanceIndex = i := by
            obtain ⟨e, he, h1, h2⟩ := hds
            exact ⟨e, List.mem_cons_of_mem d he, h1, h2⟩
          rw [if_pos hds, if_pos hex]
        · have hex : ¬ ∃ e ∈ d :: ds, e.region = some r ∧ e.instanceIndex = i := by
            rintro ⟨e, he, h1, h2⟩
            rcases List.mem_cons.mp he with rfl | he2
            · exact hi h2
            · exact hds ⟨e, he2, h1, h2⟩
          rw [if_neg hds, if_neg hex, if_pos hd, writeColor_other _ _ _ _ _ hk hi]
    · have hiff : (∃ e ∈ d :: ds, e.region = some r ∧ e.instanceIndex = i) ↔
          (∃ e ∈ ds, e.region = some r ∧ e.instanceIndex = i) := by
        constructor
        · rintro ⟨e, he, h1, h2⟩
          rcases List.mem_cons.mp he with rfl | he2
          · exact absurd h1 hd
          · exact ⟨e, he2, h1, h2⟩
        · rintro ⟨e, he, h1, h2⟩
          exact ⟨e, List.mem_cons_of_mem d he, h1, h2⟩
      rw [if_neg hd]
      by_cases hds : ∃ e ∈ ds, e.region = some r ∧ e.instanceIndex = i
      · rw [if_pos hds, if_pos (hiff.mpr hds)]
      · rw [if_neg hds, if_neg (fun h => hds (hiff.mp h))]

/-- In both the blacklist and unblacklist branches, the new color buffer is
the recolor loop applied to the old buffer with the display color derived
from the updated count of the resolved region. -/
lemma applyCountryUpdate_colorBuf (st : GlobeState) (u : CountryUpdate) (r : String)
    (hcode : u.code ≠ "") (hdots : st.dots ≠ [])
    (hr : countryToRegion u.code = some r)
    (ht : u.type = "blacklist" ∨ u.type = "unblacklist") :
    (applyCountryUpdate st u).colorBuf =
      writeRegionColors st.dots r
        (displayColor ((applyCountryUpdate st u).counts r)) st.colorBuf := by
  have hg : ¬ (u.code = "" ∨ st.dots.isEmpty = true) := by simp [hcode, hdots]
  unfold applyCountryUpdate
  rw [if_neg hg, hr]
  rcases ht with ht | ht <;> rw [ht] <;> rfl

/-- Claim C9: a blacklist or unblacklist update resolving to region r
overwrites the 3 color channels of exactly the instance slots occupied by
dots of region r with the derived display color; the channels of any
instance belonging to a dot of another region (with its own slot), or to no
dot at all, are unchanged. -/
theorem region_recolor_exact (st : GlobeState) (u : CountryUpdate) (r : String)
    (hcode : u.code ≠ "") (hdots : st.dots ≠ [])
    (hr : countryToRegion u.code = some r)
    (ht : u.type = "blacklist" ∨ u.type = "unblacklist") :
    (∀ d ∈ st.dots, d.region = some r →
      (applyCountryUpdate st u).colorBuf (3 * d.instanceIndex) =
        (displayColor ((applyCountryUpdate st u).counts r)).1 ∧
      (applyCountryUpdate st u).colorBuf (3 * d.instanceIndex + 1) =
        (displayColor ((applyCountryUpdate st u).counts r)).2.1 ∧
      (applyCountryUpdate st u).colorBuf (3 * d.instanceIndex + 2) =
        (displayColor ((applyCountryUpdate st u).counts r)).2.2) ∧
    (∀ d ∈ st.dots, d.region ≠ some r →
      (∀ e ∈ st.dots, e.region = some r → e.instanceIndex ≠ d.instanceIndex) →
      ∀ k, k < 3 →
        (applyCountryUpdate st u).colorBuf (3 * d.instanceIndex + k) =
          st.colorBuf (3 * d.instanceIndex + k)) ∧
    (∀ i, (∀ d ∈ st.dots, d.instanceIndex ≠ i) → ∀ k, k < 3 →
      (applyCountryUpdate st u).colorBuf (3 * i + k) = st.colorBuf (3 * i + k)) := by
  have hbuf := applyCountryUpdate_colorBuf st u r hcode hdots hr ht
  set c := displayColor ((applyCountryUpdate st u).counts r) with hc
  refine ⟨?_, ?_, ?_⟩
  · intro d hd hreg
    have hex : ∃ e ∈ st.dots, e.region = some r ∧ e.instanceIndex = d.instanceIndex :=
      ⟨d, hd, hreg, rfl⟩
    have h0 := writeRegionColors_eval st.dots r c st.colorBuf d.instanceIndex 0 (by omega)
    have h1 := writeRegionColors_eval st.dots r c st.colorBuf d.instanceIndex 1 (by omega)
    have h2 := writeRegionColors_eval st.dots r c st.colorBuf d.instanceIndex 2 (by omega)
    rw [if_pos hex] at h0 h1 h2
    refine ⟨?_, ?_, ?_⟩
    · rw [hbuf]
      simpa using h0
    · rw [hbuf]
      simpa using h1
    · rw [hbuf]
      simpa using h2
  · intro d hd hreg hother k hk
    have hex : ¬ ∃ e ∈ st.dots, e.region = some r ∧ e.instanceIndex = d.instanceIndex := by
      rintro ⟨e, he, h1, h2⟩
      exact hother e he h1 h2
    have h0 := writeRegionColors_eval st.dots r c st.colorBuf d.instanceIndex k hk
    rw [if_neg hex] at h0
    rw [hbuf]
    exact h0
  · intro i hno k hk
    have hex : ¬ ∃ e ∈ st.dots, e.region = some r ∧ e.instanceIndex = i := by
      rintro ⟨e, he, -, h2⟩
      exact hno e he h2
    have h0 := writeRegionColors_eval st.dots r c st.colorBuf i k hk
    rw [if_neg hex] at h0
    rw [hbuf]
    exact h0

/-- Concrete instance of the C9 theorem on a two-region state: the EastAsia
dot's first channel takes the derived color while the Oceania dot's first
channel is untouched by a blacklist of "CN". -/
theorem region_recolor_exact_witness :
    (applyCountryUpdate stW9 uW9).colorBuf (3 * 0) =
      (displayColor ((applyCountryUpdate stW9 uW9).counts "EastAsia")).1 ∧
    (applyCountryUpdate stW9 uW9).colorBuf (3 * 1 + 0) = stW9.colorBuf (3 * 1 + 0) :=
  ⟨((region_recolor_exact stW9 uW9 "EastAsia" (by decide) (by simp [stW9]) rfl
      (Or.inl rfl)).1 { instanceIndex := 0, region := some "EastAsia" }
      (by simp [stW9]) rfl).1,
   (region_recolor_exact stW9 uW9 "EastAsia" (by decide) (by simp [stW9]) rfl
      (Or.inl rfl)).2.1 { instanceIndex := 1, region := some "Oceania" }
      (by simp [stW9]) (by simp)
      (by
        intro e he h1
        simp [stW9] at he
        rcases he with rfl | rfl
        · decide
        · simp at h1)
      0 (by omega)⟩

/-- A dot failing the numeric lat/lon guard is passed through unchanged by
the assignment loop body. -/
lemma assignPure_skip (p : ℕ × ADot) (h : p.2.lat = none ∨ p.2.lon = none) :
    assignPure p = p := by
  rcases p with ⟨i, la, lo, rg⟩
  rcases h with h | h <;> simp at h <;> subst h
  · rfl
  · rcases la with _ | la2 <;> rfl

/-- One assignment iteration appends exactly the per-dot result to the
accumulated dot list. -/
lemma assignStep_fst (acc : List (ℕ × ADot) × List (String × List ℕ)) (p : ℕ × ADot) :
    (assignStep acc p).1 = acc.1 ++ [assignPure p] := by
  rcases p with ⟨i, la, lo, rg⟩
  rcases la with _ | la2
  · rfl
  · rcases lo with _ | lo2
    · rfl
    · rcases hfr : findRegion la2 lo2 with _ | r <;>
        simp [assignStep, assignPure, hfr]

/-- The assignment fold maps every entry through the per-dot assignment, in
entry order. -/
lemma assignFold_fst (l : List (ℕ × ADot)) (acc : List (ℕ × ADot) × List (String × List ℕ)) :
    (l.foldl assignStep acc).1 = acc.1 ++ l.map assignPure := by
  induction l generalizing acc with
  | nil => simp
  | cons p t ih =>
    simp only [List.foldl_cons, List.map_cons]
    rw [ih]
    rcases hstep : assignStep acc p with ⟨s1, s2⟩
    have h1 : s1 = acc.1 ++ [assignPure p] := by
      rw [← assignStep_fst acc p, hstep]
    simp [h1]

/-- A push into a bucket introduces only the pushed id. -/
lemma pushBucket_mem (bs : List (String × List ℕ)) (r : String) (j i : ℕ)
    (h : bucketMem (pushBucket bs r j) i) : bucketMem bs i ∨ i = j := by
  unfold pushBucket at h
  by_cases hany : bs.any (fun p => p.1 = r)
  · rw [if_pos hany] at h
    obtain ⟨p, hp, hip⟩ := h
    obtain ⟨q, hq, rfl⟩ := List.mem_map.mp hp
    by_cases hqr : q.1 = r
    · rw [if_pos hqr] at hip
      dsimp at hip
      rcases List.mem_append.mp hip with h1 | h1
      · exact Or.inl ⟨q, hq, h1⟩
      · simp at h1
        exact Or.inr h1
    · rw [if_neg hqr] at hip
      exact Or.inl ⟨q, hq, hip⟩
  · rw [if_neg hany] at h
    obtain ⟨p, hp, hip⟩ := h
    rcases List.mem_append.mp hp with h1 | h1
    · exact Or.inl ⟨p, h1, hip⟩
    · simp at h1
      subst h1
      simp at hip
      exact Or.inr hip

/-- An id whose every entry fails the numeric guard never enters any
bucket during the assignment fold. -/
lemma assignFold_buckets (l : List (ℕ × ADot)) (acc : List (ℕ × ADot) × List (String × List ℕ))
    (i : ℕ) (hacc : ¬ bucketMem acc.2 i)
    (hl : ∀ q ∈ l, q.1 = i → (q.2.lat = none ∨ q.2.lon = none)) :
    ¬ bucketMem (l.foldl assignStep acc).2 i := by
  induction l generalizing acc with
  | nil => exact hacc
  | cons q t ih =>
    simp only [List.foldl_cons]
    refine ih _ ?_ (fun p hp hpi => hl p (List.mem_cons_of_mem q hp) hpi)
    rcases q with ⟨j, la, lo, rg⟩
    rcases la with _ | la2
    · exact hacc
    rcases lo with _ | lo2
    · exact hacc
    have hji : j ≠ i := by
      intro hji
      rcases hl (j, ⟨some la2, some lo2, rg⟩) (List.mem_cons_self _ _) hji with h | h <;>
        simp at h
    intro hbm
    rcases hfr : findRegion la2 lo2 with _ | rr
    · have hb2 : (assignStep acc (j, ⟨some la2, some lo2, rg⟩)).2 =
          pushBucket acc.2 "Undefined" j := by
        simp [assignStep, hfr]
      rw [hb2] at hbm
      rcases pushBucket_mem _ _ _ _ hbm with h | h
      · exact hacc h
      · exact hji h.symm
    · have hb2 : (assignStep acc (j, ⟨some la2, some lo2, rg⟩)).2 =
          pushBucket acc.2 rr j := by
        simp [assignStep, hfr]
      rw [hb2] at hbm
      rcases pushBucket_mem _ _ _ _ hbm with h | h
      · exact hacc h
      · exact hji h.symm

/-- In a map with pairwise-distinct keys, a key determines its dot. -/
lemma keys_nodup_eq {l : List (ℕ × ADot)} (h : (l.map Prod.fst).Nodup)
    {i : ℕ} {a b : ADot} (ha : (i, a) ∈ l) (hb : (i, b) ∈ l) : a = b := by
  induction l with
  | nil => cases ha
  | cons q t ih =>
    simp only [List.map_cons, List.nodup_cons] at h
    obtain ⟨hq, ht⟩ := h
    rcases List.mem_cons.mp ha with ha1 | ha2
    · rcases List.mem_cons.mp hb with hb1 | hb2
      · have h2 := ha1.trans hb1.symm
        exact (Prod.mk.injEq _ _ _ _).mp h2 |>.2
      · exfalso
        apply hq
        have hq1 : q.1 = i := by rw [← ha1]
        rw [hq1]
        exact List.mem_map.mpr ⟨(i, b), hb2, rfl⟩
    · rcases List.mem_cons.mp hb with hb1 | hb2
      · exfalso
        apply hq
        have hq1 : q.1 = i := by rw [← hb1]
        rw [hq1]
        exact List.mem_map.mpr ⟨(i, a), ha2, rfl⟩
      · exact ih ht ha2 hb2

/-- The first containing region found by the bounds scan is one of the
declared regions. -/
lemma findRegion_mem (lat lon : ℚ) (r : String) (h : findRegion lat lon = some r) :
    ∃ rd ∈ regionDefinitions, r = rd.name := by
  unfold findRegion at h
  rcases hfind : regionDefinitions.find? (fun rd => decide (inBounds rd.bounds lat lon)) with _ | rd
  · rw [hfind] at h
    simp at h
  · rw [hfind] at h
    simp at h
    exact ⟨rd, List.mem_of_find?_eq_some hfind, h.symm⟩

/-- Claim C10: a dot with a non-numeric lat or lon is skipped entirely by
assignDotsToRegions — it is returned with its region field untouched (not
even set to "Undefined") and its id appears in no returned bucket — while
every dot with numeric lat and lon ends with some region set, either a
declared region name or "Undefined". -/
theorem assign_skips_non_numeric (dotIdMap : List (ℕ × ADot)) (i : ℕ) (d : ADot)
    (hmem : (i, d) ∈ dotIdMap)
    (hnodup : (dotIdMap.map Prod.fst).Nodup)
    (hnn : d.lat = none ∨ d.lon = none) :
    (i, d) ∈ (assignDotsToRegions dotIdMap).1 ∧
    (∀ p ∈ (assignDotsToRegions dotIdMap).2, i ∉ p.2) ∧
    (∀ j e, (j, e) ∈ dotIdMap → ∀ la lo, e.lat = some la → e.lon = some lo →
      ∃ r, (j, { e with region := some r }) ∈ (assignDotsToRegions dotIdMap).1 ∧
        ((∃ rd ∈ regionDefinitions, r = rd.name) ∨ r = "Undefined")) := by
  have hfst : (assignDotsToRegions dotIdMap).1 = dotIdMap.map assignPure := by
    unfold assignDotsToRegions
    rw [assignFold_fst]
    rfl
  refine ⟨?_, ?_, ?_⟩
  · rw [hfst]
    exact List.mem_map.mpr ⟨(i, d), hmem, assignPure_skip _ hnn⟩
  · intro p hp hip
    have hnb : ¬ bucketMem (assignDotsToRegions dotIdMap).2 i := by
      unfold assignDotsToRegions
      refine assignFold_buckets _ _ _ ?_ ?_
      · rintro ⟨q, hq, hiq⟩
        obtain ⟨rd, -, rfl⟩ := List.mem_map.mp hq
        simp at hiq
      · intro q hq hqi
        rcases q with ⟨j, e⟩
        dsimp at hqi
        subst hqi
        have he : e = d := keys_nodup_eq hnodup hq hmem
        subst he
        exact hnn
    exact hnb ⟨p, hp, hip⟩
  · intro j e hje la lo hla hlo
    rw [hfst]
    rcases hfr : findRegion la lo with _ | rr
    · refine ⟨"Undefined", ?_, Or.inr rfl⟩
      refine List.mem_map.mpr ⟨(j, e), hje, ?_⟩
      simp [assignPure, hla, hlo, hfr]
    · refine ⟨rr, ?_, Or.inl (findRegion_mem la lo rr hfr)⟩
      refine List.mem_map.mpr ⟨(j, e), hje, ?_⟩
      simp [assignPure, hla, hlo, hfr]

/-- Concrete instance of the C10 theorem: a dot with lat missing is passed
through unchanged and its id 1 is in no bucket of the result. -/
theorem assign_skips_non_numeric_witness :
    ((1 : ℕ), ({ lat := none, lon := some 10, region := none } : ADot)) ∈
      (assignDotsToRegions
        [(1, { lat := none, lon := some 10, region := none }),
         (2, { lat := some 35, lon := some 60, region := none })]).1 ∧
    (∀ p ∈ (assignDotsToRegions
        [(1, { lat := none, lon := some 10, region := none }),
         (2, { lat := some 35, lon := some 60, region := none })]).2, 1 ∉ p.2) :=
  ⟨(assign_skips_non_numeric
      [(1, { lat := none, lon := some 10, region := none }),
       (2, { lat := some 35, lon := some 60, region := none })]
      1 { lat := none, lon := some 10, region := none }
      (by simp) (by simp) (Or.inl rfl)).1,
   (assign_skips_non_numeric
      [(1, { lat := none, lon := some 10, region := none }),
       (2, { lat := some 35, lon := some 60, region := none })]
      1 { lat := none, lon := some 10, region := none }
      (by simp) (by simp) (Or.inl rfl)).2.1⟩

/-- Claim C8: calculateRegionCentroids' per-region computation yields the
zero-vector sentinel for an empty region and for a zero-length average, and
for any region whose averaged position is non-zero it yields a centroid of
exact unit Euclidean norm (hence within the 1e-6 tolerance of 1.0). -/
theorem centroid_normalized (ids : List ℕ) (dm : ℕ → Option CDot) :
    (ids = [] → centroidFor ids dm = (0, 0, 0)) ∧
    (avgVec ids dm = (0, 0, 0) → centroidFor ids dm = (0, 0, 0)) ∧
    (validDots ids dm ≠ [] → avgVec ids dm ≠ (0, 0, 0) →
      Real.sqrt ((centroidFor ids dm).1 ^ 2 + (centroidFor ids dm).2.1 ^ 2 +
        (centroidFor ids dm).2.2 ^ 2) = 1) := by
  refine ⟨?_, ?_, ?_⟩
  · intro h
    subst h
    rfl
  · intro h
    by_cases h1 : ids.isEmpty
    · simp [centroidFor, h1]
    by_cases h2 : (validDots ids dm).length = 0
    · simp [centroidFor, h1, h2]
    · have hlen : Real.sqrt ((avgVec ids dm).1 * (avgVec ids dm).1 +
          (avgVec ids dm).2.1 * (avgVec ids dm).2.1 +
          (avgVec ids dm).2.2 * (avgVec ids dm).2.2) = 0 := by
        rw [h]
        simp
      simp [centroidFor, h1, h2, hlen]
  · intro hvd hav
    have h1 : ¬ ids.isEmpty = true := by
      rcases ids with _ | ⟨a, t⟩
      · exact absurd rfl hvd
      · simp
    have h2 : ¬ (validDots ids dm).length = 0 := by
      simpa [List.length_eq_zero] using hvd
    rcases hA : avgVec ids dm with ⟨x, y, z⟩
    rw [hA] at hav
    have hxyz : ¬ (x = 0 ∧ y = 0 ∧ z = 0) := by
      rintro ⟨hx, hy, hz⟩
      exact hav (by rw [hx, hy, hz])
    set s := x * x + y * y + z * z with hs
    have hs_nonneg : 0 ≤ s := by
      nlinarith [mul_self_nonneg x, mul_self_nonneg y, mul_self_nonneg z]
    have hs_pos : 0 < s := by
      rcases eq_or_lt_of_le hs_nonneg with h | h
      · exfalso
        have hxx : x * x = 0 := le_antisymm
          (by nlinarith [mul_self_nonneg y, mul_self_nonneg z]) (mul_self_nonneg x)
        have hyy : y * y = 0 := le_antisymm
          (by nlinarith [mul_self_nonneg x, mul_self_nonneg z]) (mul_self_nonneg y)
        have hzz : z * z = 0 := le_antisymm
          (by nlinarith [mul_self_nonneg x, mul_self_nonneg y]) (mul_self_nonneg z)
        exact hxyz ⟨mul_self_eq_zero.mp hxx, mul_self_eq_zero.mp hyy, mul_self_eq_zero.mp hzz⟩
      · exact h
    have hL : Real.sqrt s ≠ 0 := ne_of_gt (Real.sqrt_pos.mpr hs_pos)
    have hcf : centroidFor ids dm =
        (x / Real.sqrt s * 1, y / Real.sqrt s * 1, z / Real.sqrt s * 1) := by
      simp only [centroidFor, hA]
      rw [if_neg h1, if_neg h2, if_neg hL]
    rw [hcf]
    have hsq : Real.sqrt s ^ 2 = s := Real.sq_sqrt hs_nonneg
    have hsum : (x / Real.sqrt s * 1) ^ 2 + (y / Real.sqrt s * 1) ^ 2 +
        (z / Real.sqrt s * 1) ^ 2 = 1 := by
      have hr : (x / Real.sqrt s * 1) ^ 2 + (y / Real.sqrt s * 1) ^ 2 +
          (z / Real.sqrt s * 1) ^ 2 = (x * x + y * y + z * z) / Real.sqrt s ^ 2 := by
        field_simp
        ring
      rw [hr, hsq, ← hs]
      exact div_self (ne_of_gt hs_pos)
    rw [hsum, Real.sqrt_one]

/-- Concrete instance of the C8 theorem: a one-dot region at (1,0,0) has a
unit-norm centroid. -/
theorem centroid_normalized_witness :
    Real.sqrt ((centroidFor [1] dmW).1 ^ 2 + (centroidFor [1] dmW).2.1 ^ 2 +
      (centroidFor [1] dmW).2.2 ^ 2) = 1 :=
  (centroid_normalized [1] dmW).2.2
    (by simp [validDots, dmW])
    (by simp [avgVec, validDots, dmW, Prod.ext_iff])

/-- The y samples strictly decrease with the index. -/
lemma genY_strict_anti (n : ℕ) (hn : 2 ≤ n) {i j : ℕ} (hij : i < j) :
    genY n j < genY n i := by
  unfold genY
  have hd : (0 : ℝ) < (n : ℝ) - 1 := by
    have h2 : (2 : ℝ) ≤ (n : ℝ) := by exact_mod_cast hn
    linarith
  have hij2 : (i : ℝ) < (j : ℝ) := by exact_mod_cast hij
  have h3 : (i : ℝ) / ((n : ℝ) - 1) < (j : ℝ) / ((n : ℝ) - 1) :=
    (div_lt_div_iff_of_pos_right hd).mpr hij2
  linarith

/-- Every in-range y sample lies in the domain of arcsin. -/
lemma genY_mem (n : ℕ) (hn : 2 ≤ n) {i : ℕ} (hi : i ≤ n - 1) :
    genY n i ∈ Set.Icc (-1 : ℝ) 1 := by
  unfold genY
  have hd : (0 : ℝ) < (n : ℝ) - 1 := by
    have h2 : (2 : ℝ) ≤ (n : ℝ) := by exact_mod_cast hn
    linarith
  have h4 : (1 : ℕ) ≤ n := by omega
  have h5 : ((n - 1 : ℕ) : ℝ) = (n : ℝ) - 1 := by
    rw [Nat.cast_sub h4]
    simp
  have hi2 : (i : ℝ) ≤ (n : ℝ) - 1 := by
    calc (i : ℝ) ≤ ((n - 1 : ℕ) : ℝ) := by exact_mod_cast hi
      _ = (n : ℝ) - 1 := h5
  constructor
  · have h6 : (i : ℝ) / ((n : ℝ) - 1) ≤ 1 := (div_le_one hd).mpr hi2
    linarith
  · have h7 : 0 ≤ (i : ℝ) / ((n : ℝ) - 1) := div_nonneg (by positivity) (le_of_lt hd)
    linarith

/-- The latitudes strictly decrease with the index (arcsin is strictly
monotone on [-1, 1] and 180/π is positive). -/
lemma genLat_strict_anti (n : ℕ) (hn : 2 ≤ n) {i j : ℕ} (hij : i < j) (hj : j < n) :
    genLat n j < genLat n i := by
  unfold genLat
  have hmi : genY n i ∈ Set.Icc (-1 : ℝ) 1 := genY_mem n hn (by omega)
  have hmj : genY n j ∈ Set.Icc (-1 : ℝ) 1 := genY_mem n hn (by omega)
  have harc : Real.arcsin (genY n j) < Real.arcsin (genY n i) :=
    Real.strictMonoOn_arcsin hmj hmi (genY_strict_anti n hn hij)
  have hpos : (0 : ℝ) < 180 / Real.pi := div_pos (by norm_num) Real.pi_pos
  exact mul_lt_mul_of_pos_right harc hpos

/-- The first sample is at latitude exactly 90. -/
lemma genLat_zero (n : ℕ) : genLat n 0 = 90 := by
  have h0 : genY n 0 = 1 := by simp [genY]
  unfold genLat
  rw [h0, Real.arcsin_one]
  field_simp
  ring

/-- The last sample is at latitude exactly -90. -/
lemma genLat_last (n : ℕ) (hn : 2 ≤ n) : genLat n (n - 1) = -90 := by
  have h4 : (1 : ℕ) ≤ n := by omega
  have h5 : ((n - 1 : ℕ) : ℝ) = (n : ℝ) - 1 := by
    rw [Nat.cast_sub h4]
    simp
  have hd : ((n : ℝ) - 1) ≠ 0 := by
    have h2 : (2 : ℝ) ≤ (n : ℝ) := by exact_mod_cast hn
    linarith
  have hy : genY n (n - 1) = -1 := by
    unfold genY
    rw [h5, div_self hd]
    ring
  unfold genLat
  rw [hy, Real.arcsin_neg_one]
  field_simp
  ring

/-- Claim C4: for every n ≥ 2 generateLatLonGrid returns exactly n points,
latitude strictly decreases by index from exactly +90 (index 0) down to
exactly -90 (index n-1), and no two returned points share an identical
(lat, lon) pair. -/
theorem generator_grid_properties (n : ℕ) (hn : 2 ≤ n) :
    (generateLatLonGrid n).length = n ∧
    (∀ i j, i < j → j < n → genLat n j < genLat n i) ∧
    genLat n 0 = 90 ∧ genLat n (n - 1) = -90 ∧
    (generateLatLonGrid n).Nodup := by
  refine ⟨?_, ?_, genLat_zero n, genLat_last n hn, ?_⟩
  · simp [generateLatLonGrid]
  · intro i j hij hj
    exact genLat_strict_anti n hn hij hj
  · unfold generateLatLonGrid
    refine List.Nodup.map_on ?_ (List.nodup_range n)
    intro i hi j hj hfij
    rw [List.mem_range] at hi hj
    have heq : genLat n i = genLat n j := congrArg Prod.fst hfij
    by_contra hne
    rcases Nat.lt_or_ge i j with h | h
    · have h3 := genLat_strict_anti n hn h hj
      linarith
    · have h4 : j < i := by omega
      have h3 := genLat_strict_anti n hn h4 hi
      linarith

/-- Concrete instance of the C4 theorem at n = 2. -/
theorem generator_grid_properties_witness :
    (generateLatLonGrid 2).length = 2 ∧
    (∀ i j, i < j → j < 2 → genLat 2 j < genLat 2 i) ∧
    genLat 2 0 = 90 ∧ genLat 2 (2 - 1) = -90 ∧
    (generateLatLonGrid 2).Nodup :=
  generator_grid_properties 2 (by norm_num)
